import Mathlib

/-!
# LogDevice messaging core: shallow embedding and verification

This file embeds the messaging core of the LogDevice repository as it is
observable from the files under `src/`:

* `logdevice/test/MessagingSocketTest.cpp` — the messaging socket test
  suite, which pins the observable wire traces, send statuses and callback
  behaviour of `Connection` and `Sender`;
* `logdevice/common/protocol/GET_RSM_SNAPSHOT_REPLY_Message.cpp` — the
  reply-dispatch handler (present in full);
* `VersionedConfigStore` header — the conditional-update contract.

The `Connection`/`Sender`/`VersionedConfigStore` implementations themselves
are not among the presented files, so those operations are modelled from the
specification text, calibrated where the spec is silent or contradicted by
the concrete `EXPECT_*` assertions of the test suite (which is repository
code and therefore authoritative about observable behaviour).
-/

namespace LogDevice

/-- Status codes (subset of `logdevice/include/Err.h` used by the presented
files). -/
inductive Status where
  | OK
  | NOTINCONFIG
  | NOBUFS
  | PROTONOSUPPORT
  | INVALID_CLUSTER
  | DESTINATION_MISMATCH
  | TIMEDOUT
  | INTERNAL
  | SHUTDOWN
  | CANCELLED
  | DROPPED
  | UNREACHABLE
  | NOTFOUND
  | VERSION_MISMATCH
  | UPTODATE
  | ACCESS
  | AGAIN
  | FORWARD
  | NOSPC
  deriving DecidableEq, Repr

/-- Message types appearing in the messaging socket tests. -/
inductive MessageType where
  | HELLO
  | ACK
  | CONFIG_ADVISORY
  | STORED
  | GET_SEQ_STATE
  | GET_RSM_SNAPSHOT_REPLY
  deriving DecidableEq, Repr

/-- Record identifier carried by a `STORED_Header`
(`MessagingSocketTest.cpp`, initializers of `hdr1out`/`hdr2out`). -/
structure RecordID where
  esn : Nat
  epoch : Nat
  logid : Nat
  deriving DecidableEq, Repr

/-- `STORED_Header` as initialized by the test
(`SenderBasicSendRequest::hdr1out`, `hdr2out`). -/
structure STORED_Header where
  rid : RecordID
  wave : Nat
  status : Status
  rebuildingRecipient : Nat
  flags : Nat
  deriving DecidableEq, Repr

/-- STORED_Header::SYNCED | STORED_Header::OVERLOADED, modelled as an abstract
flag value distinct from the second header's flags. -/
def hdr1out : STORED_Header :=
  { rid := ⟨1, 2, 3⟩, wave := 0, status := Status.FORWARD,
    rebuildingRecipient := 0, flags := 1 }

/-- STORED_Header::AMENDABLE_DEPRECATED. -/
def hdr2out : STORED_Header :=
  { rid := ⟨2, 3, 4⟩, wave := 1, status := Status.NOSPC,
    rebuildingRecipient := 0, flags := 2 }

/-- The body of a typed message: either a STORED message with a concrete
header, or a generic test message (DummyMessage / VarLengthTestMessage)
identified by a tag. -/
inductive MsgBody where
  | stored (h : STORED_Header)
  | dummy (tag : Nat)
  deriving DecidableEq, Repr

/-- A typed outbound message as held in the serialization queue (spec §3
"Serialization queue"): the typed value, its minimum supported protocol
(`Message::getMinProtocolVersion`, overridden by `DummyMessage::min_proto_`),
and its reservation size in bytes. -/
structure Msg where
  id : Nat
  body : MsgBody
  minProto : Nat
  msize : Nat
  deriving DecidableEq, Repr

/-- A frame on the wire, as the test's peer-side reads distinguish them
(`HELLO_Raw`, `CONFIG_ADVISORY_Raw`, `STORED_Raw`). -/
inductive Frame where
  | hello (protoMin protoMax : Nat)
  | configAdvisory
  | app (m : Msg)
  deriving DecidableEq, Repr

/-- Observable events produced by the Connection: a frame written to the
wire, an `onSent(st)` completion for a message, or an `onClose(st)`
completion for a registered socket close callback. -/
inductive Event where
  | wire (f : Frame)
  | onSent (msgId : Nat) (st : Status)
  | onClose (cbId : Nat) (st : Status)
  deriving DecidableEq, Repr

/-- Connection handshake states (spec §4.2 state machine). -/
inductive ConnState where
  | Fresh
  | Connecting
  | HandshakeSent
  | Handshaken (proto : Nat)
  | Closed
  deriving DecidableEq, Repr

/-- A Connection: identity, handshake state, pre-handshake serialization
queue (FIFO), bytes charged against this socket, and registered close
callbacks (spec §3, §4.2). -/
structure Connection where
  cid : Nat
  state : ConnState
  serializeq : List Msg
  connUsed : Nat
  closeCbs : List Nat
  deriving DecidableEq, Repr

/-- Modelled from the spec: "On transition to Handshaken, every queued
message is validated against negotiated_proto: if msg.min_proto >
negotiated, the message is removed and its on-sent fires with
ProtoNoSupport; otherwise it is encoded at negotiated and appended to the
output buffer. order is preserved: queued messages are drained in FIFO
order" (§4.2). The `Connection` implementation is not among the presented
files; behaviour is pinned by `MessagingSocketTest.MessageProtoNoSupportOnSent`. -/
def drainQueue (negotiated : Nat) : List Msg → List Event
  | [] => []
  | m :: rest =>
    if negotiated < m.minProto then
      Event.onSent m.id Status.PROTONOSUPPORT :: drainQueue negotiated rest
    else
      Event.wire (Frame.app m) :: drainQueue negotiated rest

/-- Modelled from the spec: close semantics (§4.2): transition to a
terminal state, drop buffers, fire every pending `on_sent` with the close
reason, then fire every `on_close` with the reason exactly once, release
budgets. The implementation is not among the presented files; behaviour is
pinned by `MessagingSocketTest.AckProtoNoSupportClose` and
`SendFromCloseCB`. Close is idempotent after the first call (§8 item 5). -/
def Connection.close (c : Connection) (reason : Status) :
    Connection × List Event :=
  if c.state = ConnState.Closed then (c, [])
  else
    ({ c with state := ConnState.Closed, serializeq := [], connUsed := 0,
              closeCbs := [] },
     c.serializeq.map (fun m => Event.onSent m.id reason)
       ++ c.closeCbs.map (fun cb => Event.onClose cb reason))

/-- `ACK_Header` as written by the test's peer side (`ACK_Raw`). -/
structure ACK_Header where
  options : Nat
  rqid : Nat
  clientIdx : Nat
  proto : Nat
  status : Status
  deriving DecidableEq, Repr

/-- Modelled from the spec: handling of the peer's ACK (§4.2 "Handshake"):
`Ok` transitions to Handshaken and begins normal dispatch, any rejection
status closes the connection with that status as the reason.  On the `Ok`
path the test suite (`SenderBasicSend`, `SendFromCloseCB`) observes that the
initiator first transmits a `CONFIG_ADVISORY` frame and only then the
drained pre-handshake queue, so the model emits that frame first. -/
def Connection.handleAck (c : Connection) (ack : ACK_Header) :
    Connection × List Event :=
  match ack.status with
  | Status.OK =>
      ({ c with state := ConnState.Handshaken ack.proto, serializeq := [] },
       Event.wire Frame.configAdvisory :: drainQueue ack.proto c.serializeq)
  | st => c.close st

/-- Modelled from the spec: "On tcp-up the side that initiated the
connection sends HELLO" with its supported protocol range (§4.2); the first
frame a connecting socket emits.  Pinned by
`MessagingSocketTest.SocketConnect`. -/
def Connection.connect (c : Connection) (protoMin protoMax : Nat) :
    Connection × List Event :=
  match c.state with
  | ConnState.Fresh =>
      ({ c with state := ConnState.HandshakeSent },
       [Event.wire (Frame.hello protoMin protoMax)])
  | _ => (c, [])

/-- The compile-time protocol compatibility range
(`Compatibility::MIN_PROTOCOL_SUPPORTED` / `MAX_PROTOCOL_SUPPORTED`, used
by the tests; the header defining the concrete values is not among the
presented files, so the range is kept abstract). -/
structure Compat where
  minProtocolSupported : Nat
  maxProtocolSupported : Nat
  deriving DecidableEq, Repr

/-- Peer class for budget partitioning (spec §3 "Budget counters"). -/
inductive PeerClass where
  | Server
  | Client
  deriving DecidableEq, Repr

/-- Settings relevant to the messaging core (spec §6, and the values set in
`testOutBufsLimit`). -/
structure Settings where
  outbufsMbMaxPerThread : Nat
  outbufSocketMinKb : Nat
  outbufsLimitPerPeerTypeEnabled : Bool
  deriving DecidableEq, Repr

/-- Combined output-buffer cap in bytes. -/
def Settings.combinedCap (s : Settings) : Nat :=
  s.outbufsMbMaxPerThread * 1024 * 1024

/-- Per-class cap in bytes: half the combined cap when per-peer-type mode
is enabled (spec §3 "each capped at outbufs_mb_max_per_thread / 2"). -/
def Settings.classCap (s : Settings) : Nat :=
  s.combinedCap / 2

/-- Per-socket guaranteed minimum in bytes. -/
def Settings.sockMin (s : Settings) : Nat :=
  s.outbufSocketMinKb * 1024

/-- Modelled from the spec: output-budget admission (§4.4 step 3): a socket
that has used less than `outbuf_socket_min_kb` is admitted regardless of the
class totals; otherwise the applicable class total (per-peer-type mode) or
the combined total is checked against its cap.  The `Sender` implementation
is not among the presented files; the test `testOutBufsLimit` pins the
check to be against the bytes already used, before the new message's
reservation is added (it accepts 600 KiB + 600 KiB against a 1 MiB combined
cap, and only rejects the third 600 KiB). -/
def budgetCheck (set : Settings) (cls : PeerClass) (connUsed usedServer usedClient : Nat) : Bool :=
  if connUsed < set.sockMin then true
  else if set.outbufsLimitPerPeerTypeEnabled then
    (match cls with
     | PeerClass.Server => usedServer
     | PeerClass.Client => usedClient) ≤ set.classCap
  else
    usedServer + usedClient ≤ set.combinedCap

/-- The admission predicate as the spec's words (§4.4 step 3) state it:
the class total plus the new size bounded by the class cap, or the
combined total plus the new size bounded by the combined cap, i.e. the new message's reservation
size is counted against the cap.  Defined for comparison with `budgetCheck`. -/
def specBudgetCheck (set : Settings) (cls : PeerClass) (connUsed usedServer usedClient msize : Nat) : Bool :=
  if connUsed < set.sockMin then true
  else if set.outbufsLimitPerPeerTypeEnabled then
    (match cls with
     | PeerClass.Server => usedServer
     | PeerClass.Client => usedClient) + msize ≤ set.classCap
  else
    usedServer + usedClient + msize ≤ set.combinedCap

/-- Configuration snapshot: the node indices present in the cluster
configuration (spec §3 "Configuration snapshot"; `create_config` in the
test). -/
structure Config where
  nodes : List Nat
  deriving DecidableEq, Repr

/-- Per-worker Sender state (spec §4.4): server connections indexed by node
index, the two class totals, and a counter for fresh connection
identities. -/
structure Sender where
  serverConns : List (Nat × Connection)
  usedServer : Nat
  usedClient : Nat
  nextId : Nat
  deriving DecidableEq, Repr

/-- Look up the Connection to a given node index
(`Sender::findServerConnection`). -/
def Sender.findServerConnection (s : Sender) (idx : Nat) : Option Connection :=
  (s.serverConns.lookup idx)

/-- Replace the Connection registered for a node index. -/
def Sender.setConn (s : Sender) (idx : Nat) (c : Connection) : Sender :=
  { s with serverConns :=
      (idx, c) :: s.serverConns.filter (fun p => p.1 ≠ idx) }

/-- Result of `Sender::sendMessage`: on success ownership moves to the
Connection (`msg` is nulled); on failure the status is reported through
`err` and the caller retains the message (`EXPECT_TRUE(msg)` after failed
sends in the test). -/
structure SendOutcome where
  rv : Int
  errStatus : Status
  callerKeepsMsg : Bool
  deriving DecidableEq, Repr

/-- Modelled from the spec: `Sender::send_message` (§4.4): (1) if the
peer's node index is not in the current config, fail with `NotInConfig`
(caller keeps the message, nothing changes); (2) find or create the
Connection (a fresh one gets identity `nextId` and immediately sends
HELLO); (3) post-handshake, a message whose `min_proto` exceeds the
negotiated protocol fails synchronously with `ProtoNoSupport` (§4.2, pinned
by `SendMessageExpectBadProtoRequest` with `synchronous_error_`);
(4) budget admission per `budgetCheck`, rejecting with `NoBufs`; (5) on success
the message is queued (pre-handshake) or transmitted (post-handshake) and
its reservation is charged to the socket and the class total. -/
def Sender.sendMessage (cfg : Config) (set : Settings) (compat : Compat) (s : Sender)
    (idx : Nat) (m : Msg) (closeCb : Option Nat) :
    SendOutcome × Sender × List Event :=
  if idx ∉ cfg.nodes then
    (⟨-1, Status.NOTINCONFIG, true⟩, s, [])
  else
    let found := s.findServerConnection idx
    let created := found.isNone
    let c := match found with
      | some c => c
      | none => { cid := s.nextId, state := ConnState.Fresh,
                  serializeq := [], connUsed := 0, closeCbs := [] }
    let s1 := if created then { s with nextId := s.nextId + 1 } else s
    let protoBad := match c.state with
      | ConnState.Handshaken p => decide (p < m.minProto)
      | _ => false
    if protoBad then
      (⟨-1, Status.PROTONOSUPPORT, true⟩, s, [])
    else if ¬ budgetCheck set PeerClass.Server c.connUsed s1.usedServer s1.usedClient then
      (⟨-1, Status.NOBUFS, true⟩, s, [])
    else
      let helloEvents :=
        match c.state with
        | ConnState.Fresh =>
            [Event.wire (Frame.hello compat.minProtocolSupported
                                     compat.maxProtocolSupported)]
        | _ => []
      let c1 :=
        match c.state with
        | ConnState.Fresh => { c with state := ConnState.HandshakeSent }
        | _ => c
      let sendEvents :=
        match c1.state with
        | ConnState.Handshaken _ => [Event.wire (Frame.app m)]
        | _ => []
      let c2 :=
        match c1.state with
        | ConnState.Handshaken _ => c1
        | _ => { c1 with serializeq := c1.serializeq ++ [m] }
      let c3 := { c2 with connUsed := c2.connUsed + m.msize,
                          closeCbs := c2.closeCbs ++ closeCb.toList }
      let s2 := { (s1.setConn idx c3) with
                    usedServer := s1.usedServer + m.msize }
      (⟨0, Status.OK, false⟩, s2, helloEvents ++ sendEvents)

/-- Modelled from the spec: close semantics step (6): the Connection
"removes itself from Sender's index atomically from the Worker's point of
view" (§4.2), releasing its budget (step 5).  The close callbacks fire
after removal, so a reentrant send from `on_close` is routed to a new
Connection (`SendMessageOnCloseRequest::OnClose`). -/
def Sender.closeConn (s : Sender) (idx : Nat) (reason : Status) :
    Sender × List Event :=
  match s.findServerConnection idx with
  | none => (s, [])
  | some c =>
      ({ s with serverConns := s.serverConns.filter (fun p => p.1 ≠ idx),
                usedServer := s.usedServer - c.connUsed },
       (c.close reason).2)

/-- Apply the peer's ACK to the Connection registered for a node index
(the handshake-completion step of the Sender's connection, spec §4.2). -/
def Sender.handleAckAt (s : Sender) (idx : Nat) (ack : ACK_Header) :
    Sender × List Event :=
  match s.findServerConnection idx with
  | none => (s, [])
  | some c =>
      let (c1, events) := c.handleAck ack
      (s.setConn idx c1, events)

/-! ## Wire encoding (spec §6 "Wire frame (bit-exact)" and the test's
`HELLO_Raw` layout) -/

/-- Little-endian 16-bit encoding. -/
def u16LE (n : Nat) : List Nat :=
  [n % 256, n / 256 % 256]

/-- Little-endian 32-bit encoding. -/
def u32LE (n : Nat) : List Nat :=
  [n % 256, n / 256 % 256, n / 65536 % 256, n / 16777216 % 256]

/-- Little-endian decoding of a byte list. -/
def leDecode : List Nat → Nat
  | [] => 0
  | b :: rest => b % 256 + 256 * leDecode rest

/-- The variable-size fields of a HELLO frame (spec §6 "HELLO header":
`proto_min: u16`, `proto_max: u16`, flags, optional destination node id,
`u16` cluster-name length + bytes, `u16` build-info length + bytes;
mirrored by the test's `HELLO_Raw` struct). -/
structure HelloFields where
  protoMin : Nat
  protoMax : Nat
  flags : Nat
  destNode : List Nat
  clusterName : List Nat
  buildInfo : List Nat
  deriving DecidableEq, Repr

/-- Modelled from the spec: the type-specific bytes of a HELLO frame, after
the fixed `len`/`type` header (the `HELLO_Message` serializer is not among
the presented files).  Fields in `HELLO_Raw` order: the protocol range,
flags, the destination node id, then the length-prefixed cluster name and
build information. -/
def helloBody (h : HelloFields) : List Nat :=
  u16LE h.protoMin ++ u16LE h.protoMax ++ u16LE h.flags ++ h.destNode
    ++ u16LE h.clusterName.length ++ h.clusterName
    ++ u16LE h.buildInfo.length ++ h.buildInfo

/-- On-wire type code of a message type (`type: u16` per spec §6; concrete
code values are immaterial to the embedding). -/
def typeCode : MessageType → Nat
  | MessageType.HELLO => 1
  | MessageType.ACK => 2
  | MessageType.CONFIG_ADVISORY => 3
  | MessageType.STORED => 4
  | MessageType.GET_SEQ_STATE => 5
  | MessageType.GET_RSM_SNAPSHOT_REPLY => 6

/-- Modelled from the spec: the full HELLO frame as laid out on the wire:
`[len: u32 LE][type: u16 LE][type-specific bytes]`, no checksum field for
HELLO (the test's `HELLO_Raw` uses `ProtocolHeaderWithoutChecksum`), where
`len` is the total frame length including the fixed header (spec §6). -/
def encodeHello (h : HelloFields) : List Nat :=
  u32LE (6 + (helloBody h).length) ++ u16LE (typeCode MessageType.HELLO)
    ++ helloBody h

/-! ## GET_RSM_SNAPSHOT_REPLY dispatch
(`logdevice/common/protocol/GET_RSM_SNAPSHOT_REPLY_Message.cpp`) -/

/-- `GET_RSM_SNAPSHOT_REPLY_Header`: the field consulted by `onReceived` is
the request id `rqid`. -/
structure GET_RSM_SNAPSHOT_REPLY_Header where
  rqid : Nat
  deriving DecidableEq, Repr

/-- A `GET_RSM_SNAPSHOT_REPLY_Message`: header plus snapshot blob. -/
structure ReplyMsg where
  header : GET_RSM_SNAPSHOT_REPLY_Header
  snapshotBlob : List Nat
  deriving DecidableEq, Repr

/-- `Address` of the sending peer, forwarded verbatim to `onReply`. -/
structure Address where
  isClientAddr : Bool
  addrId : Nat
  deriving DecidableEq, Repr

/-- `Message::Disposition` returned by `onReceived`. -/
inductive Disposition where
  | NORMAL
  | KEEP
  | ERROR
  deriving DecidableEq, Repr

/-- The Worker's registry of running get-rsm-snapshot requests
(`worker->runningGetRsmSnapshotRequests().map`): rqid to request handle. -/
abbrev RsmRequestMap := List (Nat × Nat)

/-- Observable effect of the dispatch: `onReply(from, message)` invoked on
a registered request. -/
inductive RsmEffect where
  | onReply (requestRef : Nat) (source : Address) (m : ReplyMsg)
  deriving DecidableEq, Repr

/-- `GET_RSM_SNAPSHOT_REPLY_Message::onReceived`: look up `header_.rqid` in
the running-requests map; if found, invoke `onReply(from, *this)` on the
registered request; in both cases return `Disposition::NORMAL`, leaving the
registry unchanged. -/
def onReceivedGetRsmSnapshotReply (rqmap : RsmRequestMap) (source : Address)
    (m : ReplyMsg) : Disposition × List RsmEffect × RsmRequestMap :=
  match rqmap.lookup m.header.rqid with
  | some req => (Disposition.NORMAL, [RsmEffect.onReply req source m], rqmap)
  | none => (Disposition.NORMAL, [], rqmap)

/-! ## VersionedConfigStore (header in `src/`; the implementation of
`updateConfig` is not among the presented files) -/

/-- The key-value state of a versioned config store. -/
abbrev VcsStore := List (String × String)

/-- The arguments `updateConfig` passes to its write callback:
`void(Status, version_t, std::string value)`.  On `VERSION_MISMATCH` the
version that caused the mismatch and the existing config are supplied; on
`OK` the version of the newly written config. -/
structure UpdateResult where
  status : Status
  version : Option Nat
  existingValue : Option String
  deriving DecidableEq, Repr

/-- Modelled from the spec: `VersionedConfigStore::updateConfig` (header
doc comment): `base_version == none` overwrites the config for the key
regardless of its current version (also used for the initial config);
`base_version = some v` is a strict conditional update that only writes
when the existing version matches `v`, reporting `NOTFOUND` when the key
is absent and `VERSION_MISMATCH` (with the mismatching version and the
existing config) when the versions differ. -/
def updateConfig (extractVersion : String → Option Nat) (store : VcsStore)
    (key value : String) (baseVersion : Option Nat) :
    UpdateResult × VcsStore :=
  match baseVersion with
  | none =>
      ({ status := Status.OK, version := extractVersion value,
         existingValue := none },
       (key, value) :: store.filter (fun p => p.1 ≠ key))
  | some v =>
      match store.lookup key with
      | none =>
          ({ status := Status.NOTFOUND, version := none,
             existingValue := none }, store)
      | some cur =>
          if extractVersion cur = some v then
            ({ status := Status.OK, version := extractVersion value,
               existingValue := none },
             (key, value) :: store.filter (fun p => p.1 ≠ key))
          else
            ({ status := Status.VERSION_MISMATCH,
               version := extractVersion cur,
               existingValue := some cur }, store)

/-! ## Concrete scenarios from the test suite -/

/-- The frames written to the wire among a list of events, in order. -/
def wireFrames (events : List Event) : List Frame :=
  events.filterMap (fun e =>
    match e with
    | Event.wire f => some f
    | _ => none)

/-- Byte offset at which the `i`-th frame of a wire trace starts, when each
frame `f` occupies `sz f` bytes laid out contiguously in order. -/
def startOffset (sz : Frame → Nat) (frames : List Frame) (i : Nat) : Nat :=
  ((frames.map sz).take i).sum

/-- A concrete protocol compatibility range used to run the scenarios. -/
def testCompat : Compat := ⟨10, 20⟩

/-- An ACK with status Ok at a given negotiated protocol, as the test's
peer side writes it (rqid 42, client_idx 1). -/
def ackOkAt (p : Nat) : ACK_Header := ⟨0, 42, 1, p, Status.OK⟩

/-- Scenario S2 (`MessagingSocketTest.SenderBasicSend`): single-node
config. -/
def s2cfg : Config := ⟨[0]⟩

/-- Scenario S2 settings: ample output budget (defaults; the budget is not
exercised by this test). -/
def s2set : Settings := ⟨512, 16, true⟩

/-- First STORED message of scenario S2 (header `hdr1out`). -/
def storedMsg1 : Msg := ⟨1, MsgBody.stored hdr1out, 0, 50⟩

/-- Second STORED message of scenario S2 (header `hdr2out`). -/
def storedMsg2 : Msg := ⟨2, MsgBody.stored hdr2out, 0, 50⟩

/-- The empty per-worker Sender. -/
def sender0 : Sender := ⟨[], 0, 0, 0⟩

/-- S2 step 1: send `STORED(H1)` to node 0 (connects and queues). -/
def s2r1 : SendOutcome × Sender × List Event :=
  Sender.sendMessage s2cfg s2set testCompat sender0 0 storedMsg1 none

/-- S2 step 2: send `STORED(H2)` to node 0 (queues behind the first). -/
def s2r2 : SendOutcome × Sender × List Event :=
  Sender.sendMessage s2cfg s2set testCompat s2r1.2.1 0 storedMsg2 none

/-- S2 step 3: the peer answers the HELLO with ACK Ok at the maximum
protocol; the handshake completes and the queue drains. -/
def s2r3 : Sender × List Event :=
  Sender.handleAckAt s2r2.2.1 0 (ackOkAt testCompat.maxProtocolSupported)

/-- The frames the peer reads off the wire in scenario S2, in order. -/
def s2trace : List Frame :=
  wireFrames (s2r1.2.2 ++ s2r2.2.2 ++ s2r3.2)

/-- Budget scenario (`testOutBufsLimit`, client portion): three nodes in
config. -/
def obCfg : Config := ⟨[0, 1, 2]⟩

/-- Budget scenario settings: `outbufs_mb_max_per_thread = 1`,
`outbuf_socket_min_kb = 1`; the combined cap applies (per-peer-type limit
not enforced for the client). -/
def obSet : Settings := ⟨1, 1, false⟩

/-- A `VarLengthTestMessage` of the given payload size. -/
def varLenMsg (i size : Nat) : Msg := ⟨i, MsgBody.dummy i, 0, size⟩

/-- Budget step 1: 600 KiB to node 0 — accepted (fresh socket). -/
def obR1 : SendOutcome × Sender × List Event :=
  Sender.sendMessage obCfg obSet testCompat sender0 0 (varLenMsg 1 614400) none

/-- Budget step 2: another 600 KiB to node 0 — accepted (total used so far,
600 KiB, is still within the 1 MiB combined cap). -/
def obR2 : SendOutcome × Sender × List Event :=
  Sender.sendMessage obCfg obSet testCompat obR1.2.1 0 (varLenMsg 2 614400) none

/-- Budget step 3: a third 600 KiB to node 0 — rejected with `NOBUFS`
(1200 KiB already used exceeds the combined cap). -/
def obR3 : SendOutcome × Sender × List Event :=
  Sender.sendMessage obCfg obSet testCompat obR2.2.1 0 (varLenMsg 3 614400) none

/-- Budget step 4: 2 KiB to node 1 — accepted on the fresh connection by
the per-socket guaranteed minimum, despite the exhausted combined budget. -/
def obR4 : SendOutcome × Sender × List Event :=
  Sender.sendMessage obCfg obSet testCompat obR3.2.1 1 (varLenMsg 4 2048) none

/-- Budget step 5: another 2 KiB to node 1 — rejected with `NOBUFS` (the
socket is past its minimum and the combined budget is exhausted). -/
def obR5 : SendOutcome × Sender × List Event :=
  Sender.sendMessage obCfg obSet testCompat obR4.2.1 1 (varLenMsg 5 2048) none

/-- The five statuses observed by the budget scenario's sends. -/
def obStatuses : List Status :=
  [obR1.1.errStatus, obR2.1.errStatus, obR3.1.errStatus,
   obR4.1.errStatus, obR5.1.errStatus]

/-- The applicable budget total for an admission decision: the class total
in per-peer-type mode, the combined total otherwise. -/
def applicableTotal (set : Settings) (cls : PeerClass)
    (usedServer usedClient : Nat) : Nat :=
  if set.outbufsLimitPerPeerTypeEnabled then
    match cls with
    | PeerClass.Server => usedServer
    | PeerClass.Client => usedClient
  else usedServer + usedClient

/-- The cap the applicable total is checked against. -/
def applicableCap (set : Settings) : Nat :=
  if set.outbufsLimitPerPeerTypeEnabled then set.classCap else set.combinedCap

/-- Close-reentry scenario (`MessagingSocketTest.SendFromCloseCB`):
single-node config. -/
def c7cfg : Config := ⟨[0]⟩

/-- Close-reentry scenario settings (ample budget). -/
def c7set : Settings := ⟨512, 16, true⟩

/-- First message of the close-reentry scenario: connects and handshakes. -/
def c7m1 : Msg := ⟨11, MsgBody.dummy 11, 0, 10⟩

/-- Second message: sent post-handshake with a close callback (id 99). -/
def c7m2 : Msg := ⟨12, MsgBody.dummy 12, 0, 10⟩

/-- Third message: sent from within the close callback. -/
def c7m3 : Msg := ⟨13, MsgBody.dummy 13, 0, 10⟩

/-- Close-reentry step 1: first send (creates the connection). -/
def c7r1 : SendOutcome × Sender × List Event :=
  Sender.sendMessage c7cfg c7set testCompat sender0 0 c7m1 none

/-- Close-reentry step 2: the handshake completes. -/
def c7s1 : Sender :=
  (Sender.handleAckAt c7r1.2.1 0 (ackOkAt testCompat.maxProtocolSupported)).1

/-- Close-reentry step 3: post-handshake send registering close callback
99. -/
def c7r2 : SendOutcome × Sender × List Event :=
  Sender.sendMessage c7cfg c7set testCompat c7s1 0 c7m2 (some 99)

/-- The Connection being closed in the close-reentry scenario, as it stands
after step 3 (identity 0, handshaken, 20 bytes used, callback 99). -/
def c7oldConn : Connection :=
  ⟨0, ConnState.Handshaken testCompat.maxProtocolSupported, [], 20, [99]⟩

/-- Close-reentry step 4: `close(Internal)` on the connection (fires the
close callback; the reentrant send of `c7m3` happens from inside it). -/
def c7closed : Sender × List Event :=
  Sender.closeConn c7r2.2.1 0 Status.INTERNAL

/-- Close-reentry step 5: the reentrant send issued from within the close
callback. -/
def c7r3 : SendOutcome × Sender × List Event :=
  Sender.sendMessage c7cfg c7set testCompat c7closed.1 0 c7m3 none

/-- A connection awaiting its ACK with one queued message and one
registered close callback (id 7), used to exercise the ACK-rejection
path concretely. -/
def c5conn : Connection :=
  ⟨0, ConnState.HandshakeSent, [⟨1, MsgBody.dummy 1, 0, 10⟩], 10, [7]⟩

/-- An ACK carrying status `PROTONOSUPPORT`, as
`MessagingSocketTest.AckProtoNoSupportClose` writes it. -/
def c5ack : ACK_Header := ⟨0, 42, 1, 0, Status.PROTONOSUPPORT⟩

/-- Concrete HELLO fields mirroring the test's `HELLO_Raw`: a 38-byte
cluster name and 2 bytes of build information. -/
def c6fields : HelloFields :=
  ⟨3, 7, 0, [9, 9, 9, 9], List.replicate 38 0, [0, 0]⟩

/-- A fresh connection used to exercise `connect` concretely. -/
def c6conn : Connection := ⟨5, ConnState.Fresh, [], 0, []⟩

/-- A connection awaiting its ACK with one queued STORED message, used to
exercise the handshake-completion path concretely. -/
def c10conn : Connection := ⟨0, ConnState.HandshakeSent, [storedMsg1], 50, []⟩

/-- A message requiring protocol 11, queued against a peer that will
negotiate protocol 10 (the `min_proto = MIN+1` message of scenario S6). -/
def c3msgA : Msg := ⟨21, MsgBody.dummy 21, 11, 5⟩

/-- A message requiring protocol 10 (the `min_proto = MIN` message of
scenario S6). -/
def c3msgB : Msg := ⟨22, MsgBody.dummy 22, 10, 5⟩

/-- A connection that has completed its handshake at protocol 10. -/
def c3conn : Connection := ⟨0, ConnState.Handshaken 10, [], 0, []⟩

/-- A Sender holding `c3conn` for node 0. -/
def c3sender : Sender := ⟨[(0, c3conn)], 0, 0, 1⟩

/-! ## Helper lemmas -/

/-- Draining a concatenated queue drains the two parts in order. -/
theorem drainQueue_append (p : Nat) (q1 q2 : List Msg) :
    drainQueue p (q1 ++ q2) = drainQueue p q1 ++ drainQueue p q2 := by
  induction q1 with
  | nil => rfl
  | cons m rest ih =>
      by_cases h : p < m.minProto <;> simp [drainQueue, h, ih]

/-- Looking up a key among the pairs filtered to other keys finds
nothing. -/
theorem lookup_filter_ne (l : List (Nat × Connection)) (idx : Nat) :
    (l.filter (fun q => q.1 ≠ idx)).lookup idx = none := by
  induction l with
  | nil => rfl
  | cons a rest ih =>
      by_cases h : a.1 ≠ idx
      · rw [List.filter_cons_of_pos (by simpa using h)]
        have hbeq : (idx == a.1) = false := by
          simp only [beq_eq_false_iff_ne]
          exact fun he => h he.symm
        simp only [List.lookup, hbeq]
        exact ih
      · rw [List.filter_cons_of_neg (by simpa using h)]
        exact ih

/-- After `setConn`, looking up the index yields the stored connection. -/
theorem findServerConnection_setConn (s : Sender) (idx : Nat) (c : Connection) :
    (s.setConn idx c).findServerConnection idx = some c := by
  simp [Sender.setConn, Sender.findServerConnection, List.lookup_cons]

/-- Little-endian decoding of a 16-bit encoding. -/
theorem leDecode_u16LE (n : Nat) : leDecode (u16LE n) = n % 65536 := by
  simp only [u16LE, leDecode]
  omega

/-- Little-endian decoding of a 32-bit encoding. -/
theorem leDecode_u32LE (n : Nat) : leDecode (u32LE n) = n % 4294967296 := by
  simp only [u32LE, leDecode]
  omega

/-- A message whose minimum protocol exceeds the negotiated one is never
transmitted by the drain. -/
theorem wire_app_not_mem_drainQueue {p : Nat} {m : Msg}
    (h : p < m.minProto) (q : List Msg) :
    Event.wire (Frame.app m) ∉ drainQueue p q := by
  induction q with
  | nil => simp [drainQueue]
  | cons a rest ih =>
      by_cases ha : p < a.minProto
      · simp only [drainQueue, if_pos ha, List.mem_cons]
        rintro (he | he)
        · exact Event.noConfusion he
        · exact ih he
      · simp only [drainQueue, if_neg ha, List.mem_cons]
        rintro (he | he)
        · have : m = a := by
            have := Event.wire.inj he
            exact Frame.app.inj this
          subst this
          exact ha h
        · exact ih he

/-- A queued message whose minimum protocol exceeds the negotiated one
gets its on-sent failure event in the drain. -/
theorem onSent_mem_drainQueue {p : Nat} {m : Msg}
    (h : p < m.minProto) {q : List Msg} (hm : m ∈ q) :
    Event.onSent m.id Status.PROTONOSUPPORT ∈ drainQueue p q := by
  induction q with
  | nil => cases hm
  | cons a rest ih =>
      rcases List.mem_cons.mp hm with he | he
      · subst he
        simp [drainQueue, if_pos h]
      · by_cases ha : p < a.minProto
        · simp only [drainQueue, if_pos ha, List.mem_cons]
          exact Or.inr (ih he)
        · simp only [drainQueue, if_neg ha, List.mem_cons]
          exact Or.inr (ih he)

/-- A queued message within the negotiated protocol is transmitted by the
drain. -/
theorem wire_app_mem_drainQueue {p : Nat} {m : Msg}
    (h : m.minProto ≤ p) {q : List Msg} (hm : m ∈ q) :
    Event.wire (Frame.app m) ∈ drainQueue p q := by
  induction q with
  | nil => cases hm
  | cons a rest ih =>
      rcases List.mem_cons.mp hm with he | he
      · subst he
        simp [drainQueue, if_neg (Nat.not_lt.mpr h)]
      · by_cases ha : p < a.minProto
        · simp only [drainQueue, if_pos ha, List.mem_cons]
          exact Or.inr (ih he)
        · simp only [drainQueue, if_neg ha, List.mem_cons]
          exact Or.inr (ih he)

/-! ## Claim theorems -/

/-- C2: for every message, `Sender.send_message` to a peer whose node
index is absent from the current configuration fails synchronously with
`NotInConfig` (rv = -1), the caller retains ownership of the message, and
the Sender — and hence every Connection — is left unchanged, with nothing
written to the wire. -/
theorem c2_send_not_in_config (cfg : Config) (set : Settings) (compat : Compat)
    (s : Sender) (idx : Nat) (m : Msg) (cb : Option Nat)
    (h : idx ∉ cfg.nodes) :
    Sender.sendMessage cfg set compat s idx m cb =
      (⟨-1, Status.NOTINCONFIG, true⟩, s, []) := by
  simp [Sender.sendMessage, h]

/-- Witness for C2: sending to node index 332 (`badNodeID`), absent from a
three-node configuration, fails with `NotInConfig` and changes nothing. -/
theorem c2_send_not_in_config_witness :
    (332 : Nat) ∉ (Config.mk [0, 1, 2]).nodes ∧
    Sender.sendMessage (Config.mk [0, 1, 2]) s2set testCompat sender0 332
        (varLenMsg 9 100) none =
      (⟨-1, Status.NOTINCONFIG, true⟩, sender0, []) :=
  ⟨by decide,
   c2_send_not_in_config (Config.mk [0, 1, 2]) s2set testCompat sender0 332
     (varLenMsg 9 100) none (by decide)⟩

/-- C8: on receipt of a `GET_RSM_SNAPSHOT_REPLY` addressed to `rqid`, the
Worker's registry of running get-rsm-snapshot requests is consulted: if
`rqid` is present, `onReply(from, message)` is invoked on the registered
request; if absent, the message is dropped silently; in both cases the
dispatch returns `Disposition::NORMAL` and the registry is unchanged. -/
theorem c8_rsm_reply_dispatch (rqmap : RsmRequestMap) (source : Address)
    (m : ReplyMsg) :
    (∀ req, rqmap.lookup m.header.rqid = some req →
        onReceivedGetRsmSnapshotReply rqmap source m =
          (Disposition.NORMAL, [RsmEffect.onReply req source m], rqmap)) ∧
    (rqmap.lookup m.header.rqid = none →
        onReceivedGetRsmSnapshotReply rqmap source m =
          (Disposition.NORMAL, [], rqmap)) ∧
    (onReceivedGetRsmSnapshotReply rqmap source m).1 = Disposition.NORMAL ∧
    (onReceivedGetRsmSnapshotReply rqmap source m).2.2 = rqmap := by
  refine ⟨?_, ?_, ?_, ?_⟩
  · intro req hreq
    simp [onReceivedGetRsmSnapshotReply, hreq]
  · intro hnone
    simp [onReceivedGetRsmSnapshotReply, hnone]
  · unfold onReceivedGetRsmSnapshotReply
    cases rqmap.lookup m.header.rqid <;> rfl
  · unfold onReceivedGetRsmSnapshotReply
    cases rqmap.lookup m.header.rqid <;> rfl

/-- Witness for C8: with registry `[(5, 100)]`, a reply to rqid 5 invokes
`onReply` on request 100, and a reply to rqid 6 is dropped silently; both
dispatches return `NORMAL`. -/
theorem c8_rsm_reply_dispatch_witness :
    onReceivedGetRsmSnapshotReply [(5, 100)] ⟨true, 1⟩ ⟨⟨5⟩, [1, 2]⟩ =
      (Disposition.NORMAL, [RsmEffect.onReply 100 ⟨true, 1⟩ ⟨⟨5⟩, [1, 2]⟩],
       [(5, 100)]) ∧
    onReceivedGetRsmSnapshotReply [(5, 100)] ⟨true, 1⟩ ⟨⟨6⟩, [1, 2]⟩ =
      (Disposition.NORMAL, [], [(5, 100)]) :=
  ⟨(c8_rsm_reply_dispatch [(5, 100)] ⟨true, 1⟩ ⟨⟨5⟩, [1, 2]⟩).1 100 (by decide),
   (c8_rsm_reply_dispatch [(5, 100)] ⟨true, 1⟩ ⟨⟨6⟩, [1, 2]⟩).2.1 (by decide)⟩

/-- C9: `VersionedConfigStore.update` with `base_version = none`
unconditionally overwrites the stored value for the key (including
creating it when absent); with `base_version = Some v` it is a
compare-and-swap that succeeds only when the stored version equals `v`,
reports `VersionMismatch` with the current version and existing value when
it does not, and can report `NotFound` only in the conditional case. -/
theorem c9_vcs_update_config (extractVersion : String → Option Nat)
    (store : VcsStore) (key value : String) :
    ((updateConfig extractVersion store key value none).1.status = Status.OK ∧
      (updateConfig extractVersion store key value none).2.lookup key =
        some value) ∧
    (∀ v cur, store.lookup key = some cur → extractVersion cur = some v →
      (updateConfig extractVersion store key value (some v)).1.status =
          Status.OK ∧
      (updateConfig extractVersion store key value (some v)).2.lookup key =
          some value) ∧
    (∀ v cur, store.lookup key = some cur → extractVersion cur ≠ some v →
      updateConfig extractVersion store key value (some v) =
        (⟨Status.VERSION_MISMATCH, extractVersion cur, some cur⟩, store)) ∧
    (∀ v, store.lookup key = none →
      updateConfig extractVersion store key value (some v) =
        (⟨Status.NOTFOUND, none, none⟩, store)) ∧
    (∀ base : Option Nat,
      (updateConfig extractVersion store key value base).1.status =
          Status.NOTFOUND →
      base.isSome = true) := by
  refine ⟨⟨?_, ?_⟩, ?_, ?_, ?_, ?_⟩
  · rfl
  · simp [updateConfig, List.lookup]
  · intro v cur hcur hv
    constructor
    · simp [updateConfig, hcur, hv]
    · simp [updateConfig, hcur, hv, List.lookup]
  · intro v cur hcur hv
    simp [updateConfig, hcur, hv]
  · intro v hnone
    simp [updateConfig, hnone]
  · intro base hst
    cases base with
    | some v => rfl
    | none => exact absurd hst (by simp [updateConfig])

/-- Witness for C9: over the store `[("k", "aa")]` with version =
string length, an unconditional update overwrites, a CAS at version 2
succeeds, a CAS at version 5 reports the mismatching version 2 and the
existing value, a CAS on an absent key reports `NotFound`, and an
unconditional update never reports `NotFound`. -/
theorem c9_vcs_update_config_witness :
    ((updateConfig (fun s => some s.length) [("k", "aa")] "k" "bbb" none).1.status =
        Status.OK ∧
      (updateConfig (fun s => some s.length) [("k", "aa")] "k" "bbb" none).2.lookup "k" =
        some "bbb") ∧
    ((updateConfig (fun s => some s.length) [("k", "aa")] "k" "bbb" (some 2)).1.status =
        Status.OK ∧
      (updateConfig (fun s => some s.length) [("k", "aa")] "k" "bbb" (some 2)).2.lookup "k" =
        some "bbb") ∧
    updateConfig (fun s => some s.length) [("k", "aa")] "k" "bbb" (some 5) =
      (⟨Status.VERSION_MISMATCH, some 2, some "aa"⟩, [("k", "aa")]) ∧
    updateConfig (fun s => some s.length) [("k", "aa")] "kk" "bbb" (some 5) =
      (⟨Status.NOTFOUND, none, none⟩, [("k", "aa")]) :=
  ⟨(c9_vcs_update_config (fun s => some s.length) [("k", "aa")] "k" "bbb").1,
   (c9_vcs_update_config (fun s => some s.length) [("k", "aa")] "k" "bbb").2.1
     2 "aa" (by decide) (by decide),
   (c9_vcs_update_config (fun s => some s.length) [("k", "aa")] "k" "bbb").2.2.1
     5 "aa" (by decide) (by decide),
   (c9_vcs_update_config (fun s => some s.length) [("k", "aa")] "kk" "bbb").2.2.2.1
     5 (by decide)⟩

/-- C10: after the handshake completes with ACK status Ok, the first frame
the initiator transmits is a `CONFIG_ADVISORY`, ahead of every application
message that was queued pre-handshake (which follow in the drained
queue). -/
theorem c10_config_advisory_first (c : Connection) (ack : ACK_Header)
    (hok : ack.status = Status.OK) :
    (c.handleAck ack).2 =
      Event.wire Frame.configAdvisory :: drainQueue ack.proto c.serializeq ∧
    (c.handleAck ack).2.head? = some (Event.wire Frame.configAdvisory) ∧
    (∀ m : Msg, Event.wire (Frame.app m) ∈ (c.handleAck ack).2 →
      Event.wire (Frame.app m) ∈ drainQueue ack.proto c.serializeq) := by
  obtain ⟨o, r, ci, p, st⟩ := ack
  subst hok
  refine ⟨rfl, rfl, ?_⟩
  intro m hm
  rcases List.mem_cons.mp hm with he | he
  · exact absurd (Event.wire.inj he) (fun hf => Frame.noConfusion hf)
  · exact he

/-- Witness for C10: completing the handshake at protocol 20 on a
connection with `STORED(H1)` queued transmits `CONFIG_ADVISORY` first and
the STORED message after it. -/
theorem c10_config_advisory_first_witness :
    (c10conn.handleAck (ackOkAt 20)).2 =
      [Event.wire Frame.configAdvisory, Event.wire (Frame.app storedMsg1)] ∧
    (c10conn.handleAck (ackOkAt 20)).2.head? =
      some (Event.wire Frame.configAdvisory) :=
  ⟨by
    have h := (c10_config_advisory_first c10conn (ackOkAt 20) rfl).1
    rw [h]
    rfl,
   (c10_config_advisory_first c10conn (ackOkAt 20) rfl).2.1⟩

/-- C3: when the handshake completes, every message queued pre-handshake
whose `min_proto` exceeds the negotiated protocol is removed from the
serialization queue — its on-sent fires with `ProtoNoSupport` and it is
never transmitted — while every queued message within the negotiated
protocol is transmitted; and after the handshake, a send of a message with
`min_proto` above the negotiated protocol fails synchronously (rv = -1,
err = `ProtoNoSupport`, caller keeps ownership, nothing changes). -/
theorem c3_proto_no_support (p : Nat) (q : List Msg) :
    (∀ m ∈ q, p < m.minProto →
        Event.onSent m.id Status.PROTONOSUPPORT ∈ drainQueue p q ∧
        Event.wire (Frame.app m) ∉ drainQueue p q) ∧
    (∀ m ∈ q, m.minProto ≤ p →
        Event.wire (Frame.app m) ∈ drainQueue p q) ∧
    (∀ (cfg : Config) (set : Settings) (compat : Compat) (s : Sender)
        (idx : Nat) (m : Msg) (cb : Option Nat) (c : Connection),
        idx ∈ cfg.nodes → s.findServerConnection idx = some c →
        c.state = ConnState.Handshaken p → p < m.minProto →
        Sender.sendMessage cfg set compat s idx m cb =
          (⟨-1, Status.PROTONOSUPPORT, true⟩, s, [])) := by
  refine ⟨?_, ?_, ?_⟩
  · intro m hm hp
    exact ⟨onSent_mem_drainQueue hp hm, wire_app_not_mem_drainQueue hp q⟩
  · intro m hm hp
    exact wire_app_mem_drainQueue hp hm
  · intro cfg set compat s idx m cb c hidx hfind hstate hp
    simp [Sender.sendMessage, hidx, hfind, hstate, hp]

/-- Witness for C3: with negotiated protocol 10 and queue
`[c3msgA (min 11), c3msgB (min 10)]`, the drain fails `c3msgA` via on-sent
with `ProtoNoSupport` and never transmits it, transmits `c3msgB`, and a
post-handshake send of `c3msgA` through a handshaken Sender fails
synchronously with `ProtoNoSupport`. -/
theorem c3_proto_no_support_witness :
    (Event.onSent 21 Status.PROTONOSUPPORT ∈ drainQueue 10 [c3msgA, c3msgB] ∧
      Event.wire (Frame.app c3msgA) ∉ drainQueue 10 [c3msgA, c3msgB]) ∧
    Event.wire (Frame.app c3msgB) ∈ drainQueue 10 [c3msgA, c3msgB] ∧
    Sender.sendMessage s2cfg s2set testCompat c3sender 0 c3msgA none =
      (⟨-1, Status.PROTONOSUPPORT, true⟩, c3sender, []) :=
  ⟨(c3_proto_no_support 10 [c3msgA, c3msgB]).1 c3msgA (by decide) (by decide),
   (c3_proto_no_support 10 [c3msgA, c3msgB]).2.1 c3msgB (by decide) (by decide),
   (c3_proto_no_support 10 [c3msgA, c3msgB]).2.2 s2cfg s2set testCompat
     c3sender 0 c3msgA none c3conn (by decide) (by decide) (by decide)
     (by decide)⟩

/-- C5: when the peer answers the HELLO with an ACK of status
`ProtoNoSupport`, the Connection closes; the events are exactly the
on-sent failures of every queued message with `ProtoNoSupport`, in queue
order, followed by every registered on-close callback with
`ProtoNoSupport` — so every on-sent fires before any on-close — and, with
distinct message ids and distinct callback ids, each fires exactly once. -/
theorem c5_ack_proto_no_support (c : Connection) (ack : ACK_Header)
    (hstate : c.state ≠ ConnState.Closed)
    (hst : ack.status = Status.PROTONOSUPPORT) :
    (c.handleAck ack).2 =
      c.serializeq.map (fun m => Event.onSent m.id Status.PROTONOSUPPORT) ++
        c.closeCbs.map (fun cb => Event.onClose cb Status.PROTONOSUPPORT) ∧
    (c.handleAck ack).1.state = ConnState.Closed ∧
    ((c.serializeq.map Msg.id).Nodup → ∀ m ∈ c.serializeq,
      (c.handleAck ack).2.count (Event.onSent m.id Status.PROTONOSUPPORT) = 1) ∧
    (c.closeCbs.Nodup → ∀ cb ∈ c.closeCbs,
      (c.handleAck ack).2.count (Event.onClose cb Status.PROTONOSUPPORT) = 1) := by
  obtain ⟨o, r, ci, p, st⟩ := ack
  subst hst
  have hev : (c.handleAck ⟨o, r, ci, p, Status.PROTONOSUPPORT⟩).2 =
      c.serializeq.map (fun m => Event.onSent m.id Status.PROTONOSUPPORT) ++
        c.closeCbs.map (fun cb => Event.onClose cb Status.PROTONOSUPPORT) := by
    simp [Connection.handleAck, Connection.close, hstate]
  have hcl : (c.handleAck ⟨o, r, ci, p, Status.PROTONOSUPPORT⟩).1.state =
      ConnState.Closed := by
    simp [Connection.handleAck, Connection.close, hstate]
  refine ⟨hev, hcl, ?_, ?_⟩
  · intro hnodup m hm
    rw [hev, List.count_append]
    have hinj : Function.Injective
        (fun i => Event.onSent i Status.PROTONOSUPPORT) := by
      intro a b hab
      exact (Event.onSent.inj hab).1
    have h1 : (c.serializeq.map
        (fun m => Event.onSent m.id Status.PROTONOSUPPORT)).count
          (Event.onSent m.id Status.PROTONOSUPPORT) = 1 := by
      have hmm : c.serializeq.map
          (fun m => Event.onSent m.id Status.PROTONOSUPPORT) =
          (c.serializeq.map Msg.id).map
            (fun i => Event.onSent i Status.PROTONOSUPPORT) := by
        rw [List.map_map]
        rfl
      rw [hmm, List.count_map_of_injective _ _ hinj m.id]
      exact List.count_eq_one_of_mem hnodup (List.mem_map_of_mem _ hm)
    have h2 : (c.closeCbs.map
        (fun cb => Event.onClose cb Status.PROTONOSUPPORT)).count
          (Event.onSent m.id Status.PROTONOSUPPORT) = 0 := by
      rw [List.count_eq_zero]
      simp
    omega
  · intro hnodup cb hcb
    rw [hev, List.count_append]
    have hinj : Function.Injective
        (fun i => Event.onClose i Status.PROTONOSUPPORT) := by
      intro a b hab
      exact (Event.onClose.inj hab).1
    have h1 : (c.serializeq.map
        (fun m => Event.onSent m.id Status.PROTONOSUPPORT)).count
          (Event.onClose cb Status.PROTONOSUPPORT) = 0 := by
      rw [List.count_eq_zero]
      simp
    have h2 : (c.closeCbs.map
        (fun i => Event.onClose i Status.PROTONOSUPPORT)).count
          (Event.onClose cb Status.PROTONOSUPPORT) = 1 := by
      rw [List.count_map_of_injective _ _ hinj cb]
      exact List.count_eq_one_of_mem hnodup hcb
    omega

/-- Witness for C5: the ACK with status `ProtoNoSupport` on `c5conn`
(one queued message, one close callback) fires the message's on-sent with
`ProtoNoSupport` and then the close callback, each exactly once, and
closes the connection. -/
theorem c5_ack_proto_no_support_witness :
    (c5conn.handleAck c5ack).2 =
      [Event.onSent 1 Status.PROTONOSUPPORT,
       Event.onClose 7 Status.PROTONOSUPPORT] ∧
    (c5conn.handleAck c5ack).1.state = ConnState.Closed ∧
    (c5conn.handleAck c5ack).2.count (Event.onSent 1 Status.PROTONOSUPPORT) = 1 ∧
    (c5conn.handleAck c5ack).2.count (Event.onClose 7 Status.PROTONOSUPPORT) = 1 :=
  ⟨by
    have h := (c5_ack_proto_no_support c5conn c5ack (by decide) rfl).1
    rw [h]
    rfl,
   (c5_ack_proto_no_support c5conn c5ack (by decide) rfl).2.1,
   (c5_ack_proto_no_support c5conn c5ack (by decide) rfl).2.2.1 (by decide)
     ⟨1, MsgBody.dummy 1, 0, 10⟩ (by decide),
   (c5_ack_proto_no_support c5conn c5ack (by decide) rfl).2.2.2 (by decide)
     7 (by decide)⟩

/-- C6: the first frame an initiating Connection sends is a HELLO carrying
exactly the supported protocol range, and the HELLO frame's `len` field
equals the exact number of bytes of the frame as laid out on the wire. -/
theorem c6_hello_frame (compat : Compat) (c : Connection) (h : HelloFields)
    (hc : c.state = ConnState.Fresh)
    (hlen : (encodeHello h).length < 4294967296)
    (hmin : h.protoMin < 65536) (hmax : h.protoMax < 65536) :
    (c.connect compat.minProtocolSupported compat.maxProtocolSupported).2 =
      [Event.wire (Frame.hello compat.minProtocolSupported
                               compat.maxProtocolSupported)] ∧
    leDecode ((encodeHello h).take 4) = (encodeHello h).length ∧
    leDecode (((encodeHello h).drop 6).take 2) = h.protoMin ∧
    leDecode (((encodeHello h).drop 8).take 2) = h.protoMax := by
  have hlength : (encodeHello h).length = 6 + (helloBody h).length := by
    simp [encodeHello, u32LE, u16LE]
    omega
  refine ⟨?_, ?_, ?_, ?_⟩
  · simp [Connection.connect, hc]
  · have ht : (encodeHello h).take 4 = u32LE (6 + (helloBody h).length) := rfl
    rw [ht, leDecode_u32LE, hlength]
    exact Nat.mod_eq_of_lt (hlength ▸ hlen)
  · have ht : ((encodeHello h).drop 6).take 2 = u16LE h.protoMin := rfl
    rw [ht, leDecode_u16LE]
    exact Nat.mod_eq_of_lt hmin
  · have ht : ((encodeHello h).drop 8).take 2 = u16LE h.protoMax := rfl
    rw [ht, leDecode_u16LE]
    exact Nat.mod_eq_of_lt hmax

/-- Witness for C6: connecting with supported range `[3, 7]` emits exactly
one HELLO frame carrying that range, and for the concrete HELLO fields
(38-byte cluster name, 2-byte build information) the `len` field decodes
to the exact frame byte count and the header bytes decode to the protocol
range. -/
theorem c6_hello_frame_witness :
    (c6conn.connect 3 7).2 = [Event.wire (Frame.hello 3 7)] ∧
    leDecode ((encodeHello c6fields).take 4) = (encodeHello c6fields).length ∧
    leDecode (((encodeHello c6fields).drop 6).take 2) = 3 ∧
    leDecode (((encodeHello c6fields).drop 8).take 2) = 7 :=
  c6_hello_frame ⟨3, 7⟩ c6conn c6fields (by decide) (by decide) (by decide)
    (by decide)

/-- Counterexample for C1: in scenario S2 the peer does not read exactly
`HELLO`, `STORED(H1)`, `STORED(H2)` — a `CONFIG_ADVISORY` frame follows
the handshake before the two STORED messages. -/
theorem c1_wire_trace_counterexample :
    s2trace ≠ [Frame.hello testCompat.minProtocolSupported
                 testCompat.maxProtocolSupported,
               Frame.app storedMsg1, Frame.app storedMsg2] := by
  decide

/-- C1 (amended): in scenario S2 the peer reads exactly `HELLO`, then
`CONFIG_ADVISORY`, then `STORED(H1)`, then `STORED(H2)`; queued messages
drain in FIFO order (two messages accepted in order appear in that order
among the drained events); and for contiguously laid-out frames, a later
frame's first byte is strictly after an earlier frame's last byte (its
start offset is at least the earlier frame's end offset). -/
theorem c1_fifo_wire_order :
    s2trace = [Frame.hello testCompat.minProtocolSupported
                 testCompat.maxProtocolSupported,
               Frame.configAdvisory, Frame.app storedMsg1,
               Frame.app storedMsg2] ∧
    (∀ (p : Nat) (q1 q2 q3 : List Msg) (m1 m2 : Msg),
      m1.minProto ≤ p → m2.minProto ≤ p →
      ∃ l1 l2 l3, drainQueue p (q1 ++ m1 :: q2 ++ m2 :: q3) =
        l1 ++ Event.wire (Frame.app m1) ::
          (l2 ++ Event.wire (Frame.app m2) :: l3)) ∧
    (∀ (sz : Frame → Nat) (frames : List Frame) (i j : Nat)
      (hi : i < frames.length), i < j →
      startOffset sz frames i + sz (frames.get ⟨i, hi⟩) ≤
        startOffset sz frames j) := by
  refine ⟨by decide, ?_, ?_⟩
  · intro p q1 q2 q3 m1 m2 h1 h2
    refine ⟨drainQueue p q1, drainQueue p q2, drainQueue p q3, ?_⟩
    rw [drainQueue_append p (q1 ++ m1 :: q2) (m2 :: q3),
        drainQueue_append p q1 (m1 :: q2)]
    have e1 : drainQueue p (m1 :: q2) =
        Event.wire (Frame.app m1) :: drainQueue p q2 := by
      simp [drainQueue, Nat.not_lt.mpr h1]
    have e2 : drainQueue p (m2 :: q3) =
        Event.wire (Frame.app m2) :: drainQueue p q3 := by
      simp [drainQueue, Nat.not_lt.mpr h2]
    rw [e1, e2]
    simp
  · intro sz frames i j hi hij
    have hmono : ∀ a b : Nat, a ≤ b →
        startOffset sz frames a ≤ startOffset sz frames b := by
      intro a b hab
      unfold startOffset
      rw [show b = a + (b - a) by omega, List.take_add, List.sum_append]
      exact Nat.le_add_right _ _
    have hi' : i < (frames.map sz).length := by simpa using hi
    have hstep : startOffset sz frames (i + 1) =
        startOffset sz frames i + sz (frames.get ⟨i, hi⟩) := by
      unfold startOffset
      rw [List.sum_take_succ _ i hi']
      congr 1
      simp [List.getElem_map]
    calc startOffset sz frames i + sz (frames.get ⟨i, hi⟩)
        = startOffset sz frames (i + 1) := hstep.symm
      _ ≤ startOffset sz frames j := hmono _ _ (by omega)

/-- Witness for C1 (amended): the FIFO parts applied concretely: with
negotiated protocol 10, queue `[c3msgB, c3msgB]`-shaped splits produce the
two app frames in order, and for a frame trace of sizes given by a
constant-8 size function, frame 0's end offset is at most frame 2's start
offset. -/
theorem c1_fifo_wire_order_witness :
    (∃ l1 l2 l3, drainQueue 10 ([] ++ c3msgB :: [] ++ c3msgB :: []) =
      l1 ++ Event.wire (Frame.app c3msgB) ::
        (l2 ++ Event.wire (Frame.app c3msgB) :: l3)) ∧
    startOffset (fun _ => 8) s2trace 0 +
        (fun _ => 8) (s2trace.get ⟨0, by decide⟩) ≤
      startOffset (fun _ => 8) s2trace 2 :=
  ⟨c1_fifo_wire_order.2.1 10 [] [] [] c3msgB c3msgB (by decide) (by decide),
   c1_fifo_wire_order.2.2 (fun _ => 8) s2trace 0 2 (by decide) (by decide)⟩

/-- Counterexample for C4: in the budget scenario the second 600 KiB send
is admitted (rv = 0, observed status Ok) although the combined total
already used (600 KiB) plus the message's reservation (600 KiB) exceeds
the 1 MiB cap — so admission is not "total plus reservation within the
cap" as the claim states (`specBudgetCheck` is false at exactly this state). -/
theorem c4_budget_counterexample :
    obR2.1.rv = 0 ∧ obR2.1.errStatus = Status.OK ∧
    (obR1.2.1.findServerConnection 0).map Connection.connUsed = some 614400 ∧
    obR1.2.1.usedServer = 614400 ∧ obR1.2.1.usedClient = 0 ∧
    obSet.sockMin ≤ 614400 ∧
    specBudgetCheck obSet PeerClass.Server 614400 614400 0 614400 = false := by
  refine ⟨?_, ?_, ?_, ?_, ?_, ?_, ?_⟩ <;> decide

/-- C4 (amended): a send on a Connection that has used less than
`outbuf_socket_min_kb` is admitted regardless of the class or combined
totals; a send on a Connection past its minimum is admitted iff the
applicable class or combined total of bytes already used — not counting
the new message's reservation — does not exceed the cap; and the budget
scenario observes statuses Ok, Ok, NoBufs, Ok, NoBufs for its five
sends. -/
theorem c4_budget_admission :
    (∀ (set : Settings) (cls : PeerClass) (cu us uc : Nat),
      cu < set.sockMin → budgetCheck set cls cu us uc = true) ∧
    (∀ (set : Settings) (cls : PeerClass) (cu us uc : Nat),
      set.sockMin ≤ cu →
      (budgetCheck set cls cu us uc = true ↔
        applicableTotal set cls us uc ≤ applicableCap set)) ∧
    obStatuses =
      [Status.OK, Status.OK, Status.NOBUFS, Status.OK, Status.NOBUFS] := by
  refine ⟨?_, ?_, by decide⟩
  · intro set cls cu us uc hcu
    simp [budgetCheck, hcu]
  · intro set cls cu us uc hcu
    unfold budgetCheck applicableTotal applicableCap
    rw [if_neg (Nat.not_lt.mpr hcu)]
    cases hflag : set.outbufsLimitPerPeerTypeEnabled <;>
      cases cls <;> simp [hflag]

/-- Witness for C4 (amended): with the scenario settings, a fresh socket
admits against an exhausted budget, and past the minimum the admission is
exactly the already-used-total check. -/
theorem c4_budget_admission_witness :
    (0 < obSet.sockMin ∧
      budgetCheck obSet PeerClass.Server 0 999999999 0 = true) ∧
    (obSet.sockMin ≤ 2048 ∧
      (budgetCheck obSet PeerClass.Server 2048 1228800 0 = true ↔
        applicableTotal obSet PeerClass.Server 1228800 0 ≤
          applicableCap obSet)) :=
  ⟨⟨by decide,
    c4_budget_admission.1 obSet PeerClass.Server 0 999999999 0 (by decide)⟩,
   ⟨by decide,
    c4_budget_admission.2.1 obSet PeerClass.Server 2048 1228800 0
      (by decide)⟩⟩

/-- Evaluation of `sendMessage` on a Sender with no connection registered
for the target node: a fresh connection is created with identity `nextId`,
HELLO goes out, the message is queued pre-handshake, and its reservation is
charged. -/
theorem sendMessage_fresh (cfg : Config) (set : Settings) (compat : Compat)
    (s : Sender) (idx : Nat) (m : Msg) (cb : Option Nat)
    (hidx : idx ∈ cfg.nodes)
    (hfind : s.findServerConnection idx = none)
    (hmin : 0 < set.sockMin) :
    Sender.sendMessage cfg set compat s idx m cb =
      (⟨0, Status.OK, false⟩,
       { serverConns :=
           (idx, { cid := s.nextId, state := ConnState.HandshakeSent,
                   serializeq := [m], connUsed := m.msize,
                   closeCbs := cb.toList }) ::
             s.serverConns.filter (fun q => q.1 ≠ idx),
         usedServer := s.usedServer + m.msize,
         usedClient := s.usedClient,
         nextId := s.nextId + 1 },
       [Event.wire (Frame.hello compat.minProtocolSupported
                                compat.maxProtocolSupported)]) := by
  simp [Sender.sendMessage, hidx, hfind, budgetCheck, hmin, Sender.setConn]

/-- C7: a send issued from within an on-close callback of
`close(Internal)` succeeds and is routed to a newly created Connection,
whose identity differs from the closed one's; the message sits in the new
Connection's serialization queue and is transmitted once the new
Connection's handshake completes. -/
theorem c7_send_from_close_new_connection (cfg : Config) (set : Settings)
    (compat : Compat) (s : Sender) (idx : Nat) (reason : Status) (m : Msg)
    (cb : Option Nat) (c0 : Connection)
    (h0 : s.findServerConnection idx = some c0)
    (hfresh : c0.cid ≠ s.nextId)
    (hidx : idx ∈ cfg.nodes)
    (hmin : 0 < set.sockMin) :
    (Sender.sendMessage cfg set compat (s.closeConn idx reason).1 idx m
        cb).1.rv = 0 ∧
    ∃ c1, (Sender.sendMessage cfg set compat (s.closeConn idx reason).1 idx m
        cb).2.1.findServerConnection idx = some c1 ∧
      c1.cid ≠ c0.cid ∧ m ∈ c1.serializeq ∧
      (∀ p, m.minProto ≤ p →
        Event.wire (Frame.app m) ∈ (c1.handleAck (ackOkAt p)).2) := by
  have hs1 : (s.closeConn idx reason).1 =
      { s with serverConns := s.serverConns.filter (fun q => q.1 ≠ idx),
               usedServer := s.usedServer - c0.connUsed } := by
    simp [Sender.closeConn, h0]
  rw [hs1]
  have hfind1 : Sender.findServerConnection
      { s with serverConns := s.serverConns.filter (fun q => q.1 ≠ idx),
               usedServer := s.usedServer - c0.connUsed } idx = none := by
    simp only [Sender.findServerConnection]
    exact lookup_filter_ne _ _
  rw [sendMessage_fresh cfg set compat _ idx m cb hidx hfind1 hmin]
  refine ⟨rfl,
    ⟨{ cid := s.nextId, state := ConnState.HandshakeSent,
       serializeq := [m], connUsed := m.msize, closeCbs := cb.toList },
     ?_, fun he => hfresh he.symm, by simp, ?_⟩⟩
  · simp [Sender.findServerConnection, List.lookup]
  · intro p hp
    simp [Connection.handleAck, ackOkAt, drainQueue, Nat.not_lt.mpr hp]

/-- Witness for C7: in the close-reentry scenario, the connection being
closed has identity 0; the reentrant send succeeds and the Sender's lookup
afterwards yields a connection of identity 1 holding the message, which is
transmitted after that connection's handshake completes. -/
theorem c7_send_from_close_new_connection_witness :
    c7r2.2.1.findServerConnection 0 = some c7oldConn ∧
    c7oldConn.cid ≠ c7r2.2.1.nextId ∧
    ((Sender.sendMessage c7cfg c7set testCompat c7closed.1 0 c7m3
        none).1.rv = 0 ∧
     ∃ c1, (Sender.sendMessage c7cfg c7set testCompat c7closed.1 0 c7m3
         none).2.1.findServerConnection 0 = some c1 ∧
       c1.cid ≠ c7oldConn.cid ∧ c7m3 ∈ c1.serializeq ∧
       (∀ p, c7m3.minProto ≤ p →
         Event.wire (Frame.app c7m3) ∈ (c1.handleAck (ackOkAt p)).2)) :=
  ⟨by decide, by decide,
   c7_send_from_close_new_connection c7cfg c7set testCompat c7r2.2.1 0
     Status.INTERNAL c7m3 none c7oldConn (by decide) (by decide) (by decide)
     (by decide)⟩

end LogDevice
